import Mathlib

/-!
# Verification of the FinancialChatBot orchestration core

Shallow embedding of the orchestration pipeline of the FinancialChatBot
repository (`app/core/intent_classifier.py`, `app/core/multilingual.py`,
`app/core/tool_orchestrator_utils.py`, `app/core/tools_utils.py`,
`app/core/tool_orchestrator.py`, `app/core/response_processor.py`,
`app/core/chat_history.py`, `app/service/chat_service.py`).

Modelling conventions:
* Python strings are Lean `String`s; scanning happens over `List Char`.
* The regular expressions used by the source only combine literal pieces,
  ordered alternation of literals, greedy one-or-more / zero-or-more runs of
  a single character class, and the lazy gap `.*?`.  They are embedded by a
  small token machine (`Tok`, `matchToks`, `rsearch`, `findAll`) whose
  semantics coincide with `re.search` / `re.finditer` for these shapes
  (every greedy character-class run in the source patterns is followed by a
  token starting with a disjoint character class, so no give-back is needed).
* Intent patterns of the classifier all have the shape
  `lit₁.*lit₂.*…` and are embedded as their list of literal pieces.
  Python's `.` (no DOTALL) does not match a newline and no piece contains
  one, so a match always lies within one newline-delimited line: `patMatch`
  runs the sequential first-occurrence search (`piecesMatch`) on each line,
  which is equivalent to `re.search` for that shape.
* The language model is a black box: its outcome on a given call is an
  explicit parameter (`LLMOut` / `DetectOutcome`), with an error
  constructor standing for a raised exception inside the call.
* MongoDB documents are association lists keyed by field names;
  `$set`-with-upsert and `$push`-with-upsert are modelled explicitly.
* GridFS is a function `String → Option String` from file ids to payloads
  (`none` models a failed load; the empty string models falsy `b""`).
* `base64.b64encode(..).decode()` is abstracted by the injective wrapper
  `b64encode : String → B64`.
* `mcp_server.execute_tool` is abstracted by a parameter
  `exec : ToolCall → Envelope` where `ToolCall` records exactly which tool
  was invoked with which arguments.
* Fallible code is total: every Python `except` branch is an explicit
  alternative, so "never raises" is expressed by totality of the embedding
  together with the shape of the produced envelope.
-/

namespace FinBot

/-- Character list of a string literal (helper for pattern tables). -/
def cs (s : String) : List Char := s.data

/-! ## Sequential-piece matching (`lit₁.*lit₂.*…` patterns)

`dropAfterFirst s p` finds the first occurrence of `p` in `s` and returns the
suffix after it (`none` when `p` does not occur).  `piecesMatch ps s` holds
iff the pieces occur in order within `s` — i.e. iff `re.search` succeeds on
`p₁.*p₂.*…` over a newline-free `s`.  Python's `.` without DOTALL does not
match `\n`, so over a string with newlines `re.search` succeeds iff some
newline-delimited line contains the pieces in order (no piece of the intent
table contains a newline): that is `patMatch` below. -/

def dropAfterFirst (s : List Char) (p : List Char) : Option (List Char) :=
  if p.isPrefixOf s then some (s.drop p.length)
  else
    match s with
    | [] => none
    | _ :: t => dropAfterFirst t p

def piecesMatch : List (List Char) → List Char → Bool
  | [], _ => true
  | p :: ps, s =>
    match dropAfterFirst s p with
    | some rest => piecesMatch ps rest
    | none => false

/-- Python `needle in haystack` on lower-cased text (substring test). -/
def containsSub (s : List Char) (needle : String) : Bool :=
  (dropAfterFirst s needle.data).isSome

/-- Python `str.lower()` (character-wise; the queries and model answers the
claims quantify over are handled character by character, as in CPython for
ASCII text). -/
def pyLower (s : String) : String := String.mk (s.data.map Char.toLower)

/-- Python `str.strip()`: drop leading and trailing whitespace. -/
def pyStrip (s : String) : String :=
  String.mk (((s.data.dropWhile Char.isWhitespace).reverse.dropWhile
    Char.isWhitespace).reverse)

/-- Python `str.replace(old, new)` for a single-character pattern (the only
use in the embedded sources is `tool_name.replace("_", " ")`). -/
def pyReplaceChar (pat rep : Char) (s : String) : String :=
  String.mk (s.data.map (fun c => if c = pat then rep else c))

/-! ## Intent classifier (`app/core/intent_classifier.py`)

`self.intent_patterns`, in declaration order; each regex `a.*b.*c` is stored
as its literal pieces `[a, b, c]`. -/

def intent_patterns : List (String × List (List String)) :=
  [ ("statistical_analysis",
      [["analyze", "csv"], ["analyze", "excel"], ["data", "analysis"],
       ["statistical", "analysis"], ["average", "monthly"], ["correlation"],
       ["standard", "deviation"], ["statistical", "summary"],
       ["descriptive", "statistics"], ["mean", "median"],
       ["analyze", "data"], ["csv", "analysis"]]),
    ("financial_trend_analysis",
      [["trend", "analysis"], ["show", "trend"], ["trend", "over", "time"],
       ["growth", "pattern"], ["trend", "comparison"], ["revenue", "trend"],
       ["profit", "analysis"], ["financial", "trend"],
       ["quarterly", "trend"], ["sales", "trend"], ["trend", "in", "data"]]),
    ("extract_table_data",
      [["extract", "table"], ["get", "data", "table"],
       ["table", "information"], ["top", "products"],
       ["extract", "from", "table"], ["table", "data"],
       ["get", "top", "records"], ["filter", "data"],
       ["search", "in", "table"]]),
    ("document_summarizer",
      [["summarize", "document"], ["summary", "pdf"], ["key", "points"],
       ["summarize", "docx"], ["overview", "document"],
       ["document", "summary"], ["summarize", "file"], ["main", "points"]]),
    ("web_research",
      [["latest", "news"], ["current", "market"], ["web", "research"],
       ["online", "report"], ["market", "trends", "online"],
       ["search", "web"], ["web", "query"], ["url", "analysis"],
       ["website", "content"]]),
    ("comparative_analysis",
      [["compare", "documents"], ["comparative", "analysis"],
       ["comparison", "between"], ["compare", "files"],
       ["difference", "between"], ["contrast", "documents"],
       ["compare", "reports"], ["side", "by", "side"], ["vs"], ["versus"]]),
    ("general_query",
      [["what", "is"], ["how", "to"], ["explain"], ["tell", "me", "about"],
       ["last", "question"], ["previous", "conversation"], ["help", "me"],
       ["can", "you"], ["hello"], ["hi"], ["thanks"], ["thank", "you"]]) ]

/-- The newline-delimited lines of a character list (`'\n'` separators). -/
def linesOf : List Char → List (List Char)
  | [] => [[]]
  | c :: t =>
    if c = '\n' then [] :: linesOf t
    else
      match linesOf t with
      | [] => [[c]]
      | l :: ls => (c :: l) :: ls

/-- One pattern (list of newline-free literal pieces) matched against a
lower-cased query, with `re.search` semantics: the `.*` gaps cannot cross a
newline, so the pattern matches iff the pieces occur in order within some
single line. -/
def patMatch (p : List String) (ql : List Char) : Bool :=
  (linesOf ql).any (fun line => piecesMatch (p.map String.data) line)

/-- The rule-based stage of `classify_intent`: iterate categories in
declaration order, patterns in table order, return the first category with a
matching pattern. -/
def ruleClassifyGo : List (String × List (List String)) → List Char → Option String
  | [], _ => none
  | (intent, pats) :: rest, ql =>
    if pats.any (fun p => patMatch p ql) then some intent
    else ruleClassifyGo rest ql

def ruleClassify (q : String) : Option String :=
  ruleClassifyGo intent_patterns (pyLower q).data

/-- Specification-side description of the fast path: the first category, in
declaration order, one of whose patterns matches the lower-cased query. -/
def firstRuleIntent (q : String) : Option String :=
  (intent_patterns.find? (fun pr => pr.2.any (fun p => patMatch p (pyLower q).data))).map
    Prod.fst

/-- Outcome of the single model call made by the classifier fallback:
either the response content, or a raised exception. -/
inductive LLMOut where
  | ok (content : String)
  | exn
deriving DecidableEq

def valid_intents : List String :=
  ["statistical_analysis", "financial_trend_analysis", "extract_table_data",
   "document_summarizer", "web_research", "comparative_analysis",
   "general_query"]

/-- `IntentClassifier.classify_intent`: rule-based stage first; on no rule
match, the model answer is stripped, lower-cased and validated against
`valid_intents`; invalid answers and exceptions collapse to
`"general_query"`. -/
def classify_intent (llm : LLMOut) (query : String) : String :=
  match ruleClassify query with
  | some intent => intent
  | none =>
    match llm with
    | .ok content =>
      let intent := pyLower (pyStrip content)
      if valid_intents.contains intent then intent else "general_query"
    | .exn => "general_query"

/-! ## Token machine for the remaining source regexes

Tokens cover exactly the constructs used by
`parse_table_extraction_params` and `extract_urls_from_query`:
literal strings, ordered alternation of literals, greedy `X+` / `X*` runs of
one character class, and the lazy gap `.*?`.  `matchToks` matches a token
list at the start of a character list, returning the captured groups (in
order) and the unconsumed rest. -/

inductive Tok where
  | lit (p : List Char)
  | alts (ps : List (List Char))
  | plusC (cap : Bool) (cls : Char → Bool)
  | starC (cls : Char → Bool)
  | lazyAny

/-- Positionwise minimal search for the continuation after a lazy `.*?`
gap: try the continuation at every suffix, shortest gap first.  Each
character the gap swallows is consumed by `.`, which without DOTALL does not
match a newline, so the gap cannot extend past `'\n'`. -/
def searchPositions (k : List Char → Option (List (List Char) × List Char)) :
    List Char → Option (List (List Char) × List Char)
  | [] => k []
  | c :: t =>
    match k (c :: t) with
    | some r => some r
    | none => if c = '\n' then none else searchPositions k t

/-- Ordered alternation with backtracking: try each literal branch in order;
on a branch whose continuation fails, fall through to the next branch. -/
def tryAlts (k : List Char → Option (List (List Char) × List Char)) :
    List (List Char) → List Char → Option (List (List Char) × List Char)
  | [], _ => none
  | a :: as, s =>
    if a.isPrefixOf s then
      match k (s.drop a.length) with
      | some r => some r
      | none => tryAlts k as s
    else tryAlts k as s

def matchToks : List Tok → List Char → Option (List (List Char) × List Char)
  | [], s => some ([], s)
  | .lit p :: ts, s =>
    if p.isPrefixOf s then matchToks ts (s.drop p.length) else none
  | .alts ps :: ts, s => tryAlts (matchToks ts) ps s
  | .plusC cap cls :: ts, s =>
    let run := s.takeWhile cls
    if run.isEmpty then none
    else
      (matchToks ts (s.drop run.length)).map
        (fun r => (if cap then run :: r.1 else r.1, r.2))
  | .starC cls :: ts, s => matchToks ts (s.drop (s.takeWhile cls).length)
  | .lazyAny :: ts, s => searchPositions (matchToks ts) s

/-- `re.search`: try a match at every position, left to right; return the
captured groups of the first match. -/
def rsearch (ts : List Tok) (s : List Char) : Option (List (List Char)) :=
  match matchToks ts s with
  | some r => some r.1
  | none =>
    match s with
    | [] => none
    | _ :: t => rsearch ts t

/-- One step of `re.finditer`: the next match from the current position,
returning its captures, the full matched text and the rest of the input. -/
def nextMatch (ts : List Tok) (s : List Char) :
    Option (List (List Char) × List Char × List Char) :=
  match matchToks ts s with
  | some (caps, rest) => some (caps, s.take (s.length - rest.length), rest)
  | none =>
    match s with
    | [] => none
    | _ :: t => nextMatch ts t

/-- `re.finditer`, collecting the capture lists of all non-overlapping
matches, scanning left to right (fuel-driven; `s.length + 1` fuel always
suffices since every step consumes at least one character). -/
def findAllAux (ts : List Tok) : List Char → Nat → List (List (List Char))
  | _, 0 => []
  | s, Nat.succ f =>
    match nextMatch ts s with
    | some (caps, _, rest) =>
      if rest.length < s.length then caps :: findAllAux ts rest f
      else
        match s with
        | [] => [caps]
        | _ :: t => caps :: findAllAux ts t f
    | none => []

def findAll (ts : List Tok) (s : List Char) : List (List (List Char)) :=
  findAllAux ts s (s.length + 1)

/-! ## Character classes of the source regexes -/

/-- `\s` (Python whitespace class). -/
def wsC (c : Char) : Bool := c.isWhitespace

/-- `\d`. -/
def digitC (c : Char) : Bool := c.isDigit

/-- `\w` (word character: alphanumeric or underscore). -/
def wordC (c : Char) : Bool := c.isAlphanum || c = '_'

/-- `[><=!]`. -/
def opC (c : Char) : Bool := c = '>' || c = '<' || c = '=' || c = '!'

/-- `[^\s]`. -/
def nonWsC (c : Char) : Bool := !c.isWhitespace

/-- `[^\s,]`. -/
def nonWsCommaC (c : Char) : Bool := !c.isWhitespace && c ≠ ','

/-! ## Parameter extractor
(`ToolOrchestratorUtils.parse_table_extraction_params`) -/

/-- `(?:top|first|show)\s+(\d+)` -/
def patTopFirstShowNum : List Tok :=
  [.alts [cs "top", cs "first", cs "show"], .plusC false wsC, .plusC true digitC]

/-- `(\d+)\s+(?:rows?|records?|entries?)` (optional `s?` expanded into the
ordered alternation the backtracking engine would try). -/
def patNumRows : List Tok :=
  [.plusC true digitC, .plusC false wsC,
   .alts [cs "rows", cs "row", cs "records", cs "record",
          cs "entries", cs "entrie"]]

/-- `limit\s+(\d+)` -/
def patLimitNum : List Tok :=
  [.lit (cs "limit"), .plusC false wsC, .plusC true digitC]

/-- `(\d+)\s+(?:results?)` -/
def patNumResults : List Tok :=
  [.plusC true digitC, .plusC false wsC, .alts [cs "results", cs "result"]]

def number_patterns : List (List Tok) :=
  [patTopFirstShowNum, patNumRows, patLimitNum, patNumResults]

/-- `(?:sort|order)\s+by\s+(\w+)` -/
def patSortOrderBy : List Tok :=
  [.alts [cs "sort", cs "order"], .plusC false wsC, .lit (cs "by"),
   .plusC false wsC, .plusC true wordC]

/-- `kw\s+(\w+)` (shared shape of the highest/lowest/… patterns). -/
def patKwCol (kw : String) : List Tok :=
  [.lit (cs kw), .plusC false wsC, .plusC true wordC]

/-- `kw\s+.*?by\s+(\w+)` (shape of the `top`/`bottom` patterns). -/
def patKwByCol (kw : String) : List Tok :=
  [.lit (cs kw), .plusC false wsC, .lazyAny, .lit (cs "by"),
   .plusC false wsC, .plusC true wordC]

/-- `sort_patterns` of the source, in dict insertion order, with the
associated ascending flag (`none` for the `sort by` pattern). -/
def sort_patterns : List (List Tok × Option Bool) :=
  [(patSortOrderBy, none),
   (patKwCol "highest", some false),
   (patKwCol "lowest", some true),
   (patKwCol "largest", some false),
   (patKwCol "smallest", some true),
   (patKwCol "maximum", some false),
   (patKwCol "minimum", some true),
   (patKwByCol "top", some false),
   (patKwByCol "bottom", some true)]

/-- `where\s+(\w+)\s*([><=!]+)\s*([^\s]+)` -/
def patWhereFilter : List Tok :=
  [.lit (cs "where"), .plusC false wsC, .plusC true wordC, .starC wsC,
   .plusC true opC, .starC wsC, .plusC true nonWsC]

/-- `(\w+)\s*([><=!]+)\s*([^\s,]+)` -/
def patBareFilter : List Tok :=
  [.plusC true wordC, .starC wsC, .plusC true opC, .starC wsC,
   .plusC true nonWsCommaC]

/-- `filter\s+by\s+(\w+)\s*([><=!]+)\s*([^\s]+)` -/
def patFilterBy : List Tok :=
  [.lit (cs "filter"), .plusC false wsC, .lit (cs "by"), .plusC false wsC,
   .plusC true wordC, .starC wsC, .plusC true opC, .starC wsC,
   .plusC true nonWsC]

def filter_patterns : List (List Tok) :=
  [patWhereFilter, patBareFilter, patFilterBy]

/-- Value of a parsed filter condition after the source's numeric coercion
(`float` literals are kept as their literal text: no claim depends on
floating-point semantics). -/
inductive FilterVal where
  | intVal (i : Int)
  | floatVal (lit : String)
  | strVal (s : String)
deriving DecidableEq

structure FilterCond where
  column : String
  operator : String
  value : FilterVal
deriving DecidableEq

def digitsToNat (ds : List Char) : Nat :=
  ds.foldl (fun n c => 10 * n + (c.toNat - '0'.toNat)) 0

/-- Python `int(str)` on a token free of whitespace: optional sign followed
by at least one digit (the rarely used underscore-separator syntax is not
modelled; no claim depends on it). -/
def pyIntParse (s : String) : Option Int :=
  match s.data with
  | [] => none
  | '-' :: ds => if ds ≠ [] && ds.all digitC then some (-(digitsToNat ds : Int)) else none
  | '+' :: ds => if ds ≠ [] && ds.all digitC then some (digitsToNat ds : Int) else none
  | ds => if ds.all digitC then some (digitsToNat ds : Int) else none

/-- Python `float(str)` acceptance for tokens containing a dot: optional
sign, digits around one dot, at least one digit (exponent forms are not
modelled; no claim depends on them). -/
def pyFloatOk (s : String) : Bool :=
  let body := match s.data with
    | '-' :: ds => ds
    | '+' :: ds => ds
    | ds => ds
  match dropAfterFirst body ['.'] with
  | some frac =>
    let intPart := body.takeWhile (fun c => c ≠ '.')
    intPart.all digitC && frac.all digitC && (intPart ≠ [] || frac ≠ []) &&
      !frac.contains '.'
  | none => false

/-- The source's value coercion: `float` if the token contains `'.'`, else
`int`, keeping the raw string on `ValueError`. -/
def coerceFilterVal (v : String) : FilterVal :=
  if v.data.contains '.' then
    if pyFloatOk v then .floatVal v else .strVal v
  else
    match pyIntParse v with
    | some i => .intVal i
    | none => .strVal v

/-- All filter triples collected by the three `finditer` passes, in pass
order (duplicates retained, as in the source). -/
def collectFilters (ql : List Char) : List FilterCond :=
  ((filter_patterns.map (fun p => findAll p ql)).flatten).filterMap
    (fun caps =>
      match caps with
      | [col, op, v] =>
        some ⟨String.mk col, String.mk op, coerceFilterVal (String.mk v)⟩
      | _ => none)

structure TableParams where
  extraction_type : String
  n_results : Nat
  sort_column : Option String
  ascending : Bool
  filters : List FilterCond
deriving DecidableEq

/-- First matching number pattern: captured digits as a `Nat`. -/
def firstNumberMatch : List (List Tok) → List Char → Option Nat
  | [], _ => none
  | p :: ps, s =>
    match rsearch p s with
    | some (d :: _) => some (digitsToNat d)
    | _ => firstNumberMatch ps s

/-- First matching sort pattern: captured column and ascending flag. -/
def firstSortMatch : List (List Tok × Option Bool) → List Char →
    Option (String × Option Bool)
  | [], _ => none
  | (p, asc) :: ps, s =>
    match rsearch p s with
    | some (col :: _) => some (String.mk col, asc)
    | _ => firstSortMatch ps s

def containsAnyWord (ql : List Char) (words : List String) : Bool :=
  words.any (fun w => containsSub ql w)

/-- `column_mappings` of the source. -/
def column_mappings : List (String × List String) :=
  [("sales", ["sales", "revenue", "income"]),
   ("profit", ["profit", "earnings", "net_income"]),
   ("cost", ["cost", "expense", "expenditure"]),
   ("quantity", ["quantity", "qty", "amount"]),
   ("price", ["price", "cost", "rate"]),
   ("date", ["date", "time", "timestamp"]),
   ("name", ["name", "title", "product", "item"])]

/-- `ToolOrchestratorUtils.parse_table_extraction_params` (the happy path;
the source's blanket `except` fallback is unreachable for the pure steps
embedded here).  `filters = []` models the absence of the `"filters"` key. -/
def parse_table_extraction_params (query : String) : TableParams :=
  let ql := (pyLower query).data
  let p0 : TableParams := ⟨"all", 10, none, true, []⟩
  let p1 :=
    match firstNumberMatch number_patterns ql with
    | some n => { p0 with n_results := n, extraction_type := "top_n" }
    | none => p0
  let p2 :=
    match firstSortMatch sort_patterns ql with
    | some (col, some asc) =>
      { p1 with sort_column := some col, ascending := asc,
                extraction_type := "top_n" }
    | some (col, none) => { p1 with sort_column := some col }
    | none => p1
  let p3 :=
    match p2.sort_column with
    | some _ =>
      if containsAnyWord ql ["desc", "descending", "highest", "largest", "maximum"] then
        { p2 with ascending := false }
      else if containsAnyWord ql ["asc", "ascending", "lowest", "smallest", "minimum"] then
        { p2 with ascending := true }
      else p2
    | none => p2
  let p4 := { p3 with filters := collectFilters ql }
  let p5 :=
    match p4.sort_column with
    | some _ => p4
    | none =>
      match column_mappings.find?
          (fun cm => cm.2.any (fun v => containsSub ql v)) with
      | some (canonical, _) =>
        let base := { p4 with sort_column := some canonical }
        if containsAnyWord ql ["top", "highest", "maximum", "best"] then
          { base with ascending := false, extraction_type := "top_n" }
        else base
      | none => p4
  if p5.extraction_type = "top_n" && p5.sort_column = none then
    { p5 with sort_column := some "sales" }
  else p5

/-! ## Metric extraction (`ToolOrchestratorUtils.extract_metric_from_query`) -/

def extract_metric_from_query (query : String) : String :=
  let ql := (pyLower query).data
  match ["revenue", "sales", "profit", "expenses", "income", "cost"].find?
      (fun m => containsSub ql m) with
  | some m => m
  | none => "revenue"

/-! ## URL extraction (`ToolOrchestratorUtils.extract_urls_from_query`)

Source pattern:
`http[s]?://(?:[a-zA-Z]|[0-9]|[$-_@.&+]|[!*\\(\\),]|(?:%[0-9a-fA-F][0-9a-fA-F]))+`.
`[$-_@.&+]` is the byte range 0x24–0x5F (which already contains `@ . & + %`
and the hexadecimal digits), so the `%hh` alternative adds nothing and the
repeated group is one character class. -/

def urlC (c : Char) : Bool :=
  (c.val ≥ 'a'.val && c.val ≤ 'z'.val) ||
  (c.val ≥ 'A'.val && c.val ≤ 'Z'.val) ||
  c.isDigit ||
  (c.val ≥ '$'.val && c.val ≤ '_'.val) ||
  c = '!' || c = '*' || c = '\\' || c = '(' || c = ')' || c = ','

def patUrl : List Tok :=
  [.lit (cs "http"), .alts [cs "s", cs ""], .lit (cs "://"),
   .plusC false urlC]

/-- `re.findall` of the URL pattern: the full matched texts, left to right,
non-overlapping (the pattern has no capturing group, so `findall` returns
full matches). -/
def urlFindAllAux : List Char → Nat → List String
  | _, 0 => []
  | s, Nat.succ f =>
    match nextMatch patUrl s with
    | some (_, matched, rest) =>
      if rest.length < s.length then String.mk matched :: urlFindAllAux rest f
      else [String.mk matched]
    | none => []

def extract_urls_from_query (query : String) : List String :=
  urlFindAllAux query.data (query.data.length + 1)

/-! ## Shared result and invocation types -/

/-- Abstraction of `base64.b64encode(payload).decode("utf-8")`: an injective
wrapper keeping the payload observable. -/
structure B64 where
  payload : String
deriving DecidableEq

def b64encode (s : String) : B64 := ⟨s⟩

/-- The uniform tool-result envelope `{success, error, data…}`.  Success
payloads produced by the abstract tool executor are collapsed into `data`;
the failure envelopes built by the dispatcher itself carry `data = ""`. -/
structure Envelope where
  success : Bool
  error : String
  data : String
deriving DecidableEq

/-- A document prepared by `_execute_comparative_analysis` for the tool. -/
structure FormattedDoc where
  document_type : String
  document_name : String
  file_data : Option B64
deriving DecidableEq

structure TableParamsCall where
  params : TableParams
deriving DecidableEq

/-- Exactly which tool `mcp_server.execute_tool` is invoked on, with which
arguments (one constructor per call site of `tools_utils.py`). -/
inductive ToolCall where
  | financialTrend (message_id : String) (file_data : B64) (file_type : String)
      (metric : String)
  | statistical (file_data : B64) (file_type : String) (columns : List String)
  | extractTable (file_data : B64) (file_type : String) (params : TableParams)
  | documentSummarizer (file_data : B64) (file_type : String)
  | webResearch (url : String) (query : String)
  | comparative (message_id : String) (documents : List FormattedDoc)
      (comparison_columns : List String)
  | generalQuery (query : String) (context : String)
deriving DecidableEq

/-! ## Document and link stores -/

/-- The per-request `documents` map (`state["documents"]`): a Python dict
from `"<kind>_ids"` keys to ordered id lists. -/
abbrev DocMap := List (String × List String)

def docsLookup (documents : DocMap) (key : String) : Option (List String) :=
  (documents.find? (fun kv => kv.1 = key)).map Prod.snd

/-- GridFS (`_get_file_from_gridfs`): id to payload; `none` models a failed
load (the source returns `None`), `""` models empty file bytes. -/
abbrev GridFS := String → Option String

/-- Python truthiness of the loaded `bytes`-or-`None` value. -/
def loadTruthy : Option String → Bool
  | some d => d ≠ ""
  | none => false

/-- A stored link document (`links` collection), in insertion order in the
store (`add_link` uses `insert_one`; `find` without sort returns natural =
insertion order for this insert-only collection). -/
structure LinkDoc where
  url : String
  title : String
  created_at : Nat
deriving DecidableEq

/-- `ToolOrchestratorUtils.get_user_links`:
`find(...).to_list(length=10)` — the first ten stored links, in store
order. -/
def get_user_links (links : List LinkDoc) : List LinkDoc :=
  links.take 10

/-! ## Relevant-file resolution
(`ToolOrchestratorUtils.get_relevant_files`, `get_multiple_documents`) -/

structure FileData where
  data : B64
  type : String
deriving DecidableEq

def relevant_types (intent : String) : List String :=
  if intent = "extract_table_data" || intent = "statistical_analysis" ||
      intent = "financial_trend_analysis" then
    ["csv", "excel", "xlsx", "xls"]
  else if intent = "document_summarizer" then ["pdf", "docx"]
  else []

def getRelevantGo (gridfs : GridFS) (documents : DocMap) :
    List String → Option FileData
  | [] => none
  | ft :: rest =>
    match docsLookup documents (ft ++ "_ids") with
    | some (fid :: _) =>
      match gridfs fid with
      | some fdata =>
        if fdata ≠ "" then some ⟨b64encode fdata, ft⟩
        else getRelevantGo gridfs documents rest
      | none => getRelevantGo gridfs documents rest
    | _ => getRelevantGo gridfs documents rest

/-- `get_relevant_files`: scan the intent's relevant kinds in fixed order,
take the first stored id of the first non-empty kind, return its payload
(base64) and kind; fall through past kinds whose first file fails to load. -/
def get_relevant_files (gridfs : GridFS) (documents : DocMap)
    (intent : String) : Option FileData :=
  getRelevantGo gridfs documents (relevant_types intent)

/-- An entry of the list built by `get_multiple_documents`. -/
structure MultiDoc where
  file_data : String
  file_type : String
  document_name : String
deriving DecidableEq

def collectDocs (gridfs : GridFS) (ft : String) (ids : List String)
    (acc : List MultiDoc) : List MultiDoc :=
  ids.foldl
    (fun acc fid =>
      match gridfs fid with
      | some d =>
        if d ≠ "" then
          acc ++ [⟨d, ft, "Document_" ++ toString (acc.length + 1)⟩]
        else acc
      | none => acc)
    acc

/-- `get_multiple_documents`: every loadable pdf document then every
loadable docx document, named `Document_k` in collection order. -/
def get_multiple_documents (gridfs : GridFS) (documents : DocMap) :
    List MultiDoc :=
  let l1 := collectDocs gridfs "pdf" ((docsLookup documents "pdf_ids").getD []) []
  collectDocs gridfs "docx" ((docsLookup documents "docx_ids").getD []) l1

/-! ## Tool dispatch (`app/core/tools_utils.py`)

`mcp_server.execute_tool` is the abstract executor `exec : ToolCall →
Envelope`; each branch of `ToolsUtils` either invokes it or builds a
`success=false` envelope, exactly as the source. -/

/-- `ToolsUtils._execute_data_analysis_tool`. -/
def execute_data_analysis_tool (exec : ToolCall → Envelope)
    (tool_name query message_id : String) (documents : DocMap)
    (gridfs : GridFS) : Envelope :=
  match get_relevant_files gridfs documents tool_name with
  | some fd =>
    if tool_name = "financial_trend_analysis" then
      exec (.financialTrend message_id fd.data fd.type
        (extract_metric_from_query query))
    else if tool_name = "statistical_analysis" then
      exec (.statistical fd.data fd.type [])
    else if tool_name = "extract_table_data" then
      exec (.extractTable fd.data fd.type (parse_table_extraction_params query))
    else ⟨false, "Unknown data analysis tool: " ++ tool_name, ""⟩
  | none =>
    ⟨false, "No relevant files found for " ++ pyReplaceChar '_' ' ' tool_name, ""⟩

/-- `ToolsUtils._execute_document_summarizer`. -/
def execute_document_summarizer (exec : ToolCall → Envelope)
    (_tool_name : String) (documents : DocMap) (gridfs : GridFS) : Envelope :=
  match get_relevant_files gridfs documents "document_summarizer" with
  | some fd => exec (.documentSummarizer fd.data fd.type)
  | none => ⟨false, "No PDF or DOCX files found for summarization", ""⟩

/-- `ToolsUtils._execute_web_research`: URL from the query first, else the
head of the session's stored links, else a failure envelope. -/
def execute_web_research (exec : ToolCall → Envelope) (_tool_name query : String)
    (links : List LinkDoc) : Envelope :=
  match extract_urls_from_query query with
  | u :: _ => exec (.webResearch u query)
  | [] =>
    match get_user_links links with
    | l :: _ => exec (.webResearch l.url query)
    | [] => ⟨false, "No URL provided for web research", ""⟩

/-- The per-document formatting step of `_execute_comparative_analysis`. -/
def formatDocuments (docs : List MultiDoc) : List FormattedDoc :=
  docs.map (fun d =>
    ⟨d.file_type, d.document_name,
     if d.file_data ≠ "" then some (b64encode d.file_data) else none⟩)

/-- `ToolsUtils._execute_comparative_analysis`. -/
def execute_comparative_analysis (exec : ToolCall → Envelope)
    (_tool_name message_id : String) (documents : DocMap) (gridfs : GridFS) :
    Envelope :=
  let docs := get_multiple_documents gridfs documents
  if docs ≠ [] ∧ 2 ≤ docs.length then
    exec (.comparative message_id (formatDocuments docs) [])
  else ⟨false, "Need at least 2 documents for comparative analysis", ""⟩

/-! ## Language service (`app/core/multilingual.py`,
`get_or_detect_user_language`, `store_user_language_preference`,
`Utility.select_language`) -/

/-- `settings.SUPPORTED_LANGUAGES` (15 languages). -/
def SUPPORTED_LANGUAGES : List String :=
  ["English", "Spanish", "French", "German", "Italian", "Portuguese",
   "Dutch", "Russian", "Chinese", "Japanese", "Korean", "Arabic", "Hindi",
   "Gujarati", "Marathi"]

/-- Outcome of the language-detection model call: response content, or a
raised exception with its message. -/
inductive DetectOutcome where
  | ok (content : String)
  | exn (msg : String)
deriving DecidableEq

/-- `detect_language_llm`: strip the model answer, validate it
case-insensitively against the supported list (returning the exact listed
form), collapse anything else to `"language is not support"`; an exception
inside the call is swallowed into the string `"Error: <msg>"`. -/
def detect_language_llm (o : DetectOutcome) : String :=
  match o with
  | .ok content =>
    let result := pyStrip content
    match SUPPORTED_LANGUAGES.find? (fun lang => pyLower result = pyLower lang) with
    | some lang => lang
    | none =>
      if result ≠ "language is not support" then "language is not support"
      else result
  | .exn msg => "Error: " ++ msg

/-- A `LanguagePreference` document for one `(user, session)` pair:
an association list of field names to string values. -/
abbrev PrefDoc := List (String × String)

def prefSetField (doc : PrefDoc) (k v : String) : PrefDoc :=
  if (doc.find? (fun kv => kv.1 = k)).isSome then
    doc.map (fun kv => if kv.1 = k then (k, v) else kv)
  else doc ++ [(k, v)]

/-- `store_user_language_preference`: `update_one` with `$set` of
`{user_id, session_id, selected_language}` and `upsert=True` (note the
stored field name is `selected_language`). -/
def store_user_language_preference (pref : Option PrefDoc)
    (session_id user_id language : String) : Option PrefDoc :=
  let doc := pref.getD []
  some (prefSetField (prefSetField (prefSetField doc "user_id" user_id)
    "session_id" session_id) "selected_language" language)

/-- Python truthiness of
`language_preference and language_preference.get("language")`: the stored
document exists, is a non-empty dict, has a `"language"` field and that
field is non-empty. -/
def prefCachedLanguage (pref : Option PrefDoc) : Option String :=
  match pref with
  | none => none
  | some doc =>
    if doc.isEmpty then none
    else
      match (doc.find? (fun kv => kv.1 = "language")).map Prod.snd with
      | some l => if l = "" then none else some l
      | none => none

/-- `get_or_detect_user_language`: return the cached value when the lookup
succeeds; otherwise run detection (whose outcome is the `DetectOutcome`
parameter), store the result, and return it.  Returns the language together
with the updated preference document. -/
def get_or_detect_user_language (pref : Option PrefDoc)
    (session_id user_id : String) (o : DetectOutcome) :
    String × Option PrefDoc :=
  match prefCachedLanguage pref with
  | some lang => (lang, pref)
  | none =>
    let detected := detect_language_llm o
    (detected,
     store_user_language_preference pref session_id user_id detected)

/-- `Utility.select_language` (`app/utils.py`): validates membership in the
supported list, then stores under the `selected_language` field (insert or
update). -/
def select_language (pref : Option PrefDoc) (user_id session_id language : String) :
    Option (Option PrefDoc) :=
  if SUPPORTED_LANGUAGES.contains language then
    match pref with
    | none => some (some [("user_id", user_id), ("session_id", session_id),
                          ("selected_language", language)])
    | some doc => some (some (prefSetField doc "selected_language" language))
  else none

/-! ## Chat history (`app/core/chat_history.py`,
`ChatService.get_session_chat`) -/

/-- A MongoDB field value as used by the chat-history records: a string or a
`datetime` (timestamps are abstract instants; formatting is a parameter). -/
inductive PyVal where
  | str (s : String)
  | time (t : Nat)
deriving DecidableEq

/-- A stored message record: an association list of field names to values. -/
abbrev PyRec := List (String × PyVal)

def recLookup (r : PyRec) (k : String) : Option PyVal :=
  (r.find? (fun kv => kv.1 = k)).map Prod.snd

inductive Role where
  | human
  | ai
deriving DecidableEq

structure Message where
  role : Role
  content : String
deriving DecidableEq

/-- The `msg_dict` built by `MongoDBChatMessageHistory.aadd_message`
(`"human" if isinstance(message, HumanMessage) else "ai"`). -/
def msg_dict (message : Message) (now : Nat) (message_uuid : String) : PyRec :=
  [("type", .str (match message.role with | .human => "human" | .ai => "ai")),
   ("content", .str message.content),
   ("timestamp", .time now),
   ("message_id", .str message_uuid)]

/-- `aadd_message`: `update_one` with `$push` on `messages` and
`upsert=True` over the per-(session,user) `ChatHistory` document, modelled
as `Option (List PyRec)`. -/
def aadd_message (store : Option (List PyRec)) (message : Message)
    (now : Nat) (message_uuid : String) : Option (List PyRec) :=
  some (store.getD [] ++ [msg_dict message now message_uuid])

/-- A whole conversation appended through `aadd_message`, oldest first. -/
def applyAppends (store : Option (List PyRec)) :
    List (Message × Nat × String) → Option (List PyRec)
  | [] => store
  | (m, now, uuid) :: rest => applyAppends (aadd_message store m now uuid) rest

/-- `ChatService.get_session_chat`: project each stored record to
`{type, content, timestamp}` with the timestamp formatted through `fmt`
(abstraction of `strftime("%d-%m-%Y %H:%M:%S")`); records keep only those
three keys.  A missing key would raise `KeyError` in Python; records built
by `aadd_message` always carry them, and the lookup default marks the
impossible case distinctly. -/
def get_session_chat (fmt : Nat → String) (store : Option (List PyRec)) :
    List PyRec :=
  match store with
  | none => []
  | some msgs =>
    msgs.map (fun msg =>
      [("type", (recLookup msg "type").getD (.str "KeyError")),
       ("content", (recLookup msg "content").getD (.str "KeyError")),
       ("timestamp",
        match recLookup msg "timestamp" with
        | some (.time t) => .str (fmt t)
        | some v => v
        | none => .str "KeyError")])

/-! ## The `generate_response` stage
(`ToolOrchestrator._generate_response_node`,
`ResponseProcessor` of `app/core/response_processor.py`)

The node's calls into the processor are keyword calls; Python raises
`TypeError` when a supplied keyword is not among the callee's parameters,
before the callee body runs.  The accepted names below are the processor
method signatures, the supplied names the node's call sites. -/

/-- Parameters of `ResponseProcessor.process_and_format_response`
(beyond `self`). -/
def process_and_format_response_params : List String :=
  ["tool_result", "intent", "user_query", "user_query_language"]

/-- Parameters of `ResponseProcessor.handle_tool_failure` (beyond `self`). -/
def handle_tool_failure_params : List String :=
  ["tool_result", "user_query", "intent", "user_query_language"]

/-- Keyword names supplied by `_generate_response_node` on the success
path. -/
def generate_success_call_kwargs : List String :=
  ["tool_result", "intent", "user_query", "response_language"]

/-- Keyword names supplied by `_generate_response_node` on the failure
path. -/
def generate_failure_call_kwargs : List String :=
  ["tool_result", "user_query", "intent", "response_language"]

/-- Python keyword-call check: every supplied keyword must be a declared
parameter. -/
def pyKwargsOk (accepted supplied : List String) : Bool :=
  supplied.all (fun k => accepted.contains k)

/-- Abstract behaviour of the `ResponseProcessor` model calls: what each
method would return when actually entered (arguments in signature order,
language last). -/
structure ProcessorBehavior where
  format : Envelope → String → String → String → String
  handleFailure : Envelope → String → String → String → String
  translate : String → String → String

/-- The `OrchestratorState` TypedDict of `tool_orchestrator.py`.
`user_query_language` is `none` until the detect stage has run. -/
structure OrchestratorState where
  messages : List Message
  session_id : String
  user_id : String
  message_id : String
  user_query_language : Option String
  intent : String
  tool_result : Envelope
  documents : DocMap

/-- `state.get(key, default)` for string-valued keys: the runtime state dict
holds exactly the keys seeded by `process_query` plus those returned by the
pipeline nodes (`user_query_language`, `intent`, `tool_result`,
`messages`); any other key — in particular `"responce_language"` — is
absent. -/
def stateGetStr (st : OrchestratorState) (key : String) (default : String) :
    String :=
  if key = "session_id" then st.session_id
  else if key = "user_id" then st.user_id
  else if key = "message_id" then st.message_id
  else if key = "user_query_language" then st.user_query_language.getD default
  else if key = "intent" then st.intent
  else default

/-- Content of `state["messages"][-1]` (the state is always seeded with one
human message by `process_query`, so the list is never empty there). -/
def lastMessageContent (st : OrchestratorState) : String :=
  ((st.messages.getLast?).getD ⟨.human, ""⟩).content

/-- The `try` block of `_generate_response_node`: reads
`state.get("responce_language", "English")`, then performs a keyword call of
the processor; the unexpected `response_language=` keyword raises
`TypeError` (modelled as `Except.error`). -/
def generate_response_try (p : ProcessorBehavior) (st : OrchestratorState) :
    Except String String :=
  let response_language := stateGetStr st "responce_language" "English"
  let query := lastMessageContent st
  let intent := stateGetStr st "intent" "general_query"
  if st.tool_result.success then
    if pyKwargsOk process_and_format_response_params
        generate_success_call_kwargs then
      Except.ok (p.format st.tool_result intent query response_language)
    else
      Except.error
        "TypeError: process_and_format_response() got an unexpected keyword argument"
  else
    if pyKwargsOk handle_tool_failure_params generate_failure_call_kwargs then
      Except.ok (p.handleFailure st.tool_result query intent response_language)
    else
      Except.error
        "TypeError: handle_tool_failure() got an unexpected keyword argument"

/-- `_generate_response_node`: on any exception in the `try` block, re-read
`state.get("responce_language", "English")`, translate the fixed apology
only for non-English values, and append that single assistant message. -/
def generate_response_node (p : ProcessorBehavior) (st : OrchestratorState) :
    Message :=
  match generate_response_try p st with
  | .ok content => ⟨.ai, content⟩
  | .error _ =>
    let response_language := stateGetStr st "responce_language" "English"
    let base := "I apologize, but I encountered an error while processing your request."
    let content :=
      if response_language ≠ "English" then p.translate base response_language
      else base
    ⟨.ai, content⟩

/-! ## Theorems -/

/-- The rule stage only ever returns an intent listed in the pattern
table. -/
theorem ruleClassifyGo_mem (ps : List (String × List (List String)))
    (ql : List Char) (i : String) (h : ruleClassifyGo ps ql = some i) :
    i ∈ ps.map Prod.fst := by
  induction ps with
  | nil => simp [ruleClassifyGo] at h
  | cons hd tl ih =>
    obtain ⟨intent, pats⟩ := hd
    simp only [ruleClassifyGo] at h
    by_cases hm : pats.any (fun p => patMatch p ql)
    · simp only [hm, if_pos] at h
      simp [Option.some.injEq] at h
      simp [h]
    · simp only [hm] at h
      simp only [if_neg, Bool.false_eq_true, not_false_iff] at h
      right
      exact ih h

/-- The rule stage computes the first pattern-table entry whose pattern list
has a match (declaration order). -/
theorem ruleClassifyGo_eq_find (ps : List (String × List (List String)))
    (ql : List Char) :
    ruleClassifyGo ps ql =
      (ps.find? (fun pr => pr.2.any (fun p => patMatch p ql))).map Prod.fst := by
  induction ps with
  | nil => simp [ruleClassifyGo]
  | cons hd tl ih =>
    obtain ⟨intent, pats⟩ := hd
    by_cases hm : pats.any (fun p => patMatch p ql)
    · simp [ruleClassifyGo, hm, List.find?]
    · simp [ruleClassifyGo, hm, List.find?, ih]

theorem ruleClassify_eq_firstRuleIntent (q : String) :
    ruleClassify q = firstRuleIntent q := by
  rw [ruleClassify, firstRuleIntent, ruleClassifyGo_eq_find]

/-- C2.  For every query string, `classify_intent` returns a member of the
fixed seven-intent set and never raises (the embedding is total and handles
both model outcomes): when no rule matches and the model's answer, stripped
and lower-cased, is outside that set, or when the model call throws, the
result is `"general_query"`. -/
theorem classify_intent_valid_and_defaults (q : String) (llm : LLMOut) :
    classify_intent llm q ∈ valid_intents ∧
    (ruleClassify q = none →
      (∀ c, llm = .ok c → pyLower (pyStrip c) ∉ valid_intents →
        classify_intent llm q = "general_query") ∧
      (llm = .exn → classify_intent llm q = "general_query")) := by
  constructor
  · cases hr : ruleClassify q with
    | some i =>
      have hmem : i ∈ intent_patterns.map Prod.fst :=
        ruleClassifyGo_mem _ _ _ hr
      have hvalid : intent_patterns.map Prod.fst = valid_intents := by decide
      rw [hvalid] at hmem
      simpa [classify_intent, hr] using hmem
    | none =>
      cases llm with
      | ok c =>
        simp only [classify_intent, hr]
        split
        · next h => exact List.mem_of_elem_eq_true h
        · decide
      | exn =>
        simp only [classify_intent, hr]
        decide
  · intro hr
    refine ⟨?_, ?_⟩
    · intro c hllm hc
      subst hllm
      simp [classify_intent, hr, hc]
    · intro hllm
      subst hllm
      simp [classify_intent, hr]

/-- Witness for C2 at the query `"zzz"` (no rule matches) with an invalid
model answer and with a model exception. -/
theorem classify_intent_valid_and_defaults_witness :
    ruleClassify "zzz" = none ∧
    classify_intent (.ok " Banana ") "zzz" = "general_query" ∧
    classify_intent .exn "zzz" = "general_query" := by
  have hnone : ruleClassify "zzz" = none := by decide
  refine ⟨hnone, ?_, ?_⟩
  · exact ((classify_intent_valid_and_defaults "zzz" (.ok " Banana ")).2
      hnone).1 " Banana " rfl (by decide)
  · exact ((classify_intent_valid_and_defaults "zzz" LLMOut.exn).2 hnone).2 rfl

/-- The `.*` gap of an intent pattern cannot cross a newline: `analyze.*csv`
does not match `"analyze\ncsv"` (Python `.` without DOTALL excludes
`'\n'`). -/
theorem patMatch_gap_stops_at_newline :
    patMatch ["analyze", "csv"] (cs "analyze\ncsv") = false := by decide

/-- On a query whose only same-line match is `show.*trend`, the rule stage
returns `financial_trend_analysis` — `analyze.*csv` does not fire across the
newline. -/
theorem ruleClassify_newline_example :
    ruleClassify "analyze\ncsv show trend" = some "financial_trend_analysis" := by
  decide

/-- C3.  A query matching a rule pattern is classified, independently of the
model outcome, as the first matching pattern-table entry — categories in
declaration order, patterns in table order; `"analyze this csv"` yields
`statistical_analysis` for every model outcome. -/
theorem classify_intent_rule_first_match :
    (∀ (q i : String) (llm : LLMOut),
      firstRuleIntent q = some i → classify_intent llm q = i) ∧
    (∀ llm : LLMOut,
      classify_intent llm "analyze this csv" = "statistical_analysis") := by
  have main : ∀ (q i : String) (llm : LLMOut),
      firstRuleIntent q = some i → classify_intent llm q = i := by
    intro q i llm h
    have hr : ruleClassify q = some i := by
      rw [ruleClassify_eq_firstRuleIntent]; exact h
    simp [classify_intent, hr]
  refine ⟨main, fun llm => main _ _ llm ?_⟩
  decide

/-- Witness for C3: the hypothesis holds at `"analyze this csv"`, and the
claimed classification follows by the theorem (with the model call in its
exception state, so the fast path alone decides). -/
theorem classify_intent_rule_first_match_witness :
    firstRuleIntent "analyze this csv" = some "statistical_analysis" ∧
    classify_intent .exn "analyze this csv" = "statistical_analysis" :=
  ⟨by decide,
   classify_intent_rule_first_match.1 "analyze this csv"
     "statistical_analysis" .exn (by decide)⟩

/-- C6.  `parse_table_extraction_params` on
`"top 5 products by revenue descending"` yields `extraction_type = "top_n"`,
`n_results = 5`, `sort_column = "revenue"`, `ascending = false` (and no
filters). -/
theorem parse_table_extraction_params_top5_revenue :
    parse_table_extraction_params "top 5 products by revenue descending" =
      ⟨"top_n", 5, some "revenue", false, []⟩ := by
  decide

/-- File resolution returns nothing when every relevant kind is absent or
empty in the document map. -/
theorem getRelevantGo_none (gridfs : GridFS) (documents : DocMap)
    (ts : List String)
    (h : ∀ t ∈ ts, docsLookup documents (t ++ "_ids") = none ∨
      docsLookup documents (t ++ "_ids") = some []) :
    getRelevantGo gridfs documents ts = none := by
  induction ts with
  | nil => rfl
  | cons t rest ih =>
    have ht := h t (by simp)
    have hrest : ∀ t' ∈ rest, docsLookup documents (t' ++ "_ids") = none ∨
        docsLookup documents (t' ++ "_ids") = some [] := by
      intro t' ht'
      exact h t' (by simp [ht'])
    rcases ht with h1 | h1 <;> simp [getRelevantGo, h1, ih hrest]

/-- C7.  Dispatch of the file-requiring data-analysis intents over a
document map with no matching file returns a `success = false` envelope with
a non-empty descriptive error (and, the embedding being total, never
raises); comparative-analysis dispatch with exactly one available pdf/docx
document fails citing the two-document minimum, and with two or more
proceeds to invoke the tool. -/
theorem dispatch_failure_envelopes :
    (∀ (exec : ToolCall → Envelope) (q mid : String) (documents : DocMap)
        (gridfs : GridFS) (tool : String),
      (tool = "statistical_analysis" ∨ tool = "financial_trend_analysis" ∨
        tool = "extract_table_data") →
      (∀ t ∈ (["csv", "excel", "xlsx", "xls"] : List String),
        docsLookup documents (t ++ "_ids") = none ∨
        docsLookup documents (t ++ "_ids") = some []) →
      execute_data_analysis_tool exec tool q mid documents gridfs =
        ⟨false, "No relevant files found for " ++ pyReplaceChar '_' ' ' tool, ""⟩ ∧
      ("No relevant files found for " ++ pyReplaceChar '_' ' ' tool) ≠ "") ∧
    (∀ (exec : ToolCall → Envelope) (mid : String) (documents : DocMap)
        (gridfs : GridFS),
      (get_multiple_documents gridfs documents).length = 1 →
      execute_comparative_analysis exec "comparative_analysis" mid documents
          gridfs =
        ⟨false, "Need at least 2 documents for comparative analysis", ""⟩) ∧
    (∀ (exec : ToolCall → Envelope) (mid : String) (documents : DocMap)
        (gridfs : GridFS),
      2 ≤ (get_multiple_documents gridfs documents).length →
      execute_comparative_analysis exec "comparative_analysis" mid documents
          gridfs =
        exec (.comparative mid
          (formatDocuments (get_multiple_documents gridfs documents)) [])) := by
  refine ⟨?_, ?_, ?_⟩
  · intro exec q mid documents gridfs tool htool hempty
    have hnone : get_relevant_files gridfs documents tool = none := by
      have htypes : relevant_types tool = ["csv", "excel", "xlsx", "xls"] := by
        rcases htool with h | h | h <;> subst h <;> rfl
      rw [get_relevant_files, htypes]
      exact getRelevantGo_none gridfs documents _ hempty
    constructor
    · rw [execute_data_analysis_tool, hnone]
    · rcases htool with h | h | h <;> subst h <;> decide
  · intro exec mid documents gridfs h1
    have hcond : ¬(get_multiple_documents gridfs documents ≠ [] ∧
        2 ≤ (get_multiple_documents gridfs documents).length) := by
      rintro ⟨_, h2⟩
      rw [h1] at h2
      omega
    rw [execute_comparative_analysis, if_neg hcond]
  · intro exec mid documents gridfs h2
    have hne : get_multiple_documents gridfs documents ≠ [] := by
      intro hnil
      rw [hnil] at h2
      simp at h2
    rw [execute_comparative_analysis, if_pos ⟨hne, h2⟩]

/-- Witness for C7: an empty document map for statistical analysis; a map
with a single loadable pdf for the one-document comparative case; a map with
two loadable pdfs for the invocation case. -/
theorem dispatch_failure_envelopes_witness :
    execute_data_analysis_tool (fun _ => ⟨true, "", ""⟩) "statistical_analysis"
        "analyze my data" "m1" [] (fun _ => none) =
      ⟨false, "No relevant files found for statistical analysis", ""⟩ ∧
    execute_comparative_analysis (fun _ => ⟨true, "", ""⟩)
        "comparative_analysis" "m1" [("pdf_ids", ["p1"])]
        (fun fid => if fid = "p1" then some "PDF1" else none) =
      ⟨false, "Need at least 2 documents for comparative analysis", ""⟩ ∧
    execute_comparative_analysis
        (fun call => match call with
          | .comparative _ _ _ => ⟨true, "", "comparative invoked"⟩
          | _ => ⟨false, "", ""⟩)
        "comparative_analysis" "m1" [("pdf_ids", ["p1", "p2"])]
        (fun fid => if fid = "p1" then some "PDF1"
          else if fid = "p2" then some "PDF2" else none) =
      ⟨true, "", "comparative invoked"⟩ := by
  refine ⟨?_, ?_, ?_⟩
  · have h := (dispatch_failure_envelopes.1 (fun _ => ⟨true, "", ""⟩)
      "analyze my data" "m1" [] (fun _ => none) "statistical_analysis"
      (Or.inl rfl) (by intro t _; left; rfl)).1
    rw [h]
    decide
  · have h := dispatch_failure_envelopes.2.1 (fun _ => ⟨true, "", ""⟩) "m1"
      [("pdf_ids", ["p1"])]
      (fun fid => if fid = "p1" then some "PDF1" else none) (by decide)
    rw [h]
  · have h := dispatch_failure_envelopes.2.2
      (fun call => match call with
        | .comparative _ _ _ => ⟨true, "", "comparative invoked"⟩
        | _ => ⟨false, "", ""⟩)
      "m1" [("pdf_ids", ["p1", "p2"])]
      (fun fid => if fid = "p1" then some "PDF1"
        else if fid = "p2" then some "PDF2" else none) (by decide)
    rw [h]

/-- C10.  For a document map whose csv id list is non-empty (and whose first
csv loads), every file-requiring data-analysis dispatch uses exactly the
first stored csv id's payload: the conclusion mentions only the head `c` of
the csv list, so later csvs and any excel/xlsx/xls entries are never
selected. -/
theorem get_relevant_files_csv_priority
    (gridfs : GridFS) (documents : DocMap) (c : String) (rest : List String)
    (d : String)
    (hcsv : docsLookup documents "csv_ids" = some (c :: rest))
    (hload : gridfs c = some d) (hne : d ≠ "") :
    (∀ tool, (tool = "statistical_analysis" ∨
        tool = "financial_trend_analysis" ∨ tool = "extract_table_data") →
      get_relevant_files gridfs documents tool = some ⟨b64encode d, "csv"⟩) ∧
    (∀ (exec : ToolCall → Envelope) (q mid : String),
      execute_data_analysis_tool exec "statistical_analysis" q mid documents
          gridfs = exec (.statistical (b64encode d) "csv" []) ∧
      execute_data_analysis_tool exec "financial_trend_analysis" q mid
          documents gridfs =
        exec (.financialTrend mid (b64encode d) "csv"
          (extract_metric_from_query q)) ∧
      execute_data_analysis_tool exec "extract_table_data" q mid documents
          gridfs =
        exec (.extractTable (b64encode d) "csv"
          (parse_table_extraction_params q))) := by
  have hkey : ("csv" ++ "_ids" : String) = "csv_ids" := rfl
  have hfile : ∀ tool, (tool = "statistical_analysis" ∨
      tool = "financial_trend_analysis" ∨ tool = "extract_table_data") →
      get_relevant_files gridfs documents tool = some ⟨b64encode d, "csv"⟩ := by
    intro tool htool
    have htypes : relevant_types tool = ["csv", "excel", "xlsx", "xls"] := by
      rcases htool with h | h | h <;> subst h <;> rfl
    rw [get_relevant_files, htypes, getRelevantGo, hkey, hcsv]
    simp [hload, hne]
  refine ⟨hfile, ?_⟩
  intro exec q mid
  refine ⟨?_, ?_, ?_⟩
  · rw [execute_data_analysis_tool, hfile _ (Or.inl rfl)]
    simp
  · rw [execute_data_analysis_tool, hfile _ (Or.inr (Or.inl rfl))]
    simp
  · rw [execute_data_analysis_tool, hfile _ (Or.inr (Or.inr rfl))]
    simp

/-- Witness for C10: two csvs and an excel are stored; all dispatches use
the first csv `f1`. -/
theorem get_relevant_files_csv_priority_witness :
    docsLookup [("csv_ids", ["f1", "f2"]), ("excel_ids", ["e1"])] "csv_ids" =
      some ["f1", "f2"] ∧
    get_relevant_files
        (fun fid => if fid = "f1" then some "CSV1"
          else if fid = "f2" then some "CSV2"
          else if fid = "e1" then some "XL1" else none)
        [("csv_ids", ["f1", "f2"]), ("excel_ids", ["e1"])]
        "statistical_analysis" = some ⟨b64encode "CSV1", "csv"⟩ := by
  refine ⟨by decide, ?_⟩
  exact (get_relevant_files_csv_priority
    (fun fid => if fid = "f1" then some "CSV1"
      else if fid = "f2" then some "CSV2"
      else if fid = "e1" then some "XL1" else none)
    [("csv_ids", ["f1", "f2"]), ("excel_ids", ["e1"])]
    "f1" ["f2"] "CSV1" (by decide) (by decide) (by decide)).1
    "statistical_analysis" (Or.inl rfl)

/-- C8 counterexample.  With no URL in the query and two stored links
(`http://a.com` stored first, `http://b.com` stored most recently), the
dispatcher passes the FIRST stored link's URL to the tool, not the most
recently stored one as claimed. -/
theorem execute_web_research_counterexample :
    execute_web_research
        (fun call => match call with
          | .webResearch url _ => ⟨true, "", url⟩
          | _ => ⟨false, "", ""⟩)
        "web_research" "research this please"
        [⟨"http://a.com", "A", 1⟩, ⟨"http://b.com", "B", 2⟩] =
      ⟨true, "", "http://a.com"⟩ ∧
    execute_web_research
        (fun call => match call with
          | .webResearch url _ => ⟨true, "", url⟩
          | _ => ⟨false, "", ""⟩)
        "web_research" "research this please"
        [⟨"http://a.com", "A", 1⟩, ⟨"http://b.com", "B", 2⟩] ≠
      ⟨true, "", "http://b.com"⟩ := by
  constructor
  · decide
  · decide

/-- C8 (amended).  For every web-research dispatch: a URL in the query wins
(the first extracted one is passed); otherwise the FIRST stored link of the
session/user (head of the unsorted, insertion-ordered store query) is
passed; with neither, a `success = false` envelope with a non-empty error is
returned and, the embedding being total, nothing is raised. -/
theorem execute_web_research_dispatch (exec : ToolCall → Envelope)
    (q : String) (links : List LinkDoc) :
    (∀ u us, extract_urls_from_query q = u :: us →
      execute_web_research exec "web_research" q links =
        exec (.webResearch u q)) ∧
    (extract_urls_from_query q = [] → ∀ l ls, links = l :: ls →
      execute_web_research exec "web_research" q links =
        exec (.webResearch l.url q)) ∧
    (extract_urls_from_query q = [] → links = [] →
      execute_web_research exec "web_research" q links =
        ⟨false, "No URL provided for web research", ""⟩) := by
  refine ⟨?_, ?_, ?_⟩
  · intro u us h
    rw [execute_web_research, h]
  · intro h l ls hl
    subst hl
    rw [execute_web_research, h]
    rfl
  · intro h hl
    subst hl
    rw [execute_web_research, h]
    rfl

/-- Witness for the amended C8 at concrete inputs: a query carrying a URL; a
URL-free query with two stored links; a URL-free query with no links. -/
theorem execute_web_research_dispatch_witness :
    execute_web_research
        (fun call => match call with
          | .webResearch url _ => ⟨true, "", url⟩
          | _ => ⟨false, "", ""⟩)
        "web_research" "open http://x.com today" [] =
      ⟨true, "", "http://x.com"⟩ ∧
    execute_web_research
        (fun call => match call with
          | .webResearch url _ => ⟨true, "", url⟩
          | _ => ⟨false, "", ""⟩)
        "web_research" "latest market news"
        [⟨"http://a.com", "A", 1⟩, ⟨"http://b.com", "B", 2⟩] =
      ⟨true, "", "http://a.com"⟩ ∧
    execute_web_research
        (fun call => match call with
          | .webResearch url _ => ⟨true, "", url⟩
          | _ => ⟨false, "", ""⟩)
        "web_research" "latest market news" [] =
      ⟨false, "No URL provided for web research", ""⟩ := by
  refine ⟨?_, ?_, ?_⟩
  · have h := (execute_web_research_dispatch
      (fun call => match call with
        | .webResearch url _ => ⟨true, "", url⟩
        | _ => ⟨false, "", ""⟩)
      "open http://x.com today" []).1 "http://x.com" [] (by decide)
    rw [h]
  · have h := (execute_web_research_dispatch
      (fun call => match call with
        | .webResearch url _ => ⟨true, "", url⟩
        | _ => ⟨false, "", ""⟩)
      "latest market news"
      [⟨"http://a.com", "A", 1⟩, ⟨"http://b.com", "B", 2⟩]).2.1 (by decide)
      ⟨"http://a.com", "A", 1⟩ [⟨"http://b.com", "B", 2⟩] rfl
    rw [h]
  · exact (execute_web_research_dispatch
      (fun call => match call with
        | .webResearch url _ => ⟨true, "", url⟩
        | _ => ⟨false, "", ""⟩)
      "latest market news" []).2.2 (by decide) rfl

/-- C9 counterexample.  A message appended with `message_id = "m1"` is
stored with that field, but the record returned by `get_session_chat` has no
`message_id` key at all (the projection keeps only type/content/timestamp),
so the retrieved record does not carry the appended `message_id` content. -/
theorem get_session_chat_counterexample :
    recLookup (msg_dict ⟨.human, "hello"⟩ 5 "m1") "message_id" =
      some (.str "m1") ∧
    (get_session_chat (fun _ => "05-01-2026 00:00:00")
        (aadd_message none ⟨.human, "hello"⟩ 5 "m1")).map
      (fun r => recLookup r "message_id") = [none] := by
  constructor
  · decide
  · decide

/-- C9 (amended).  For every sequence of messages appended to the chat
history of a (session, user), retrieval returns one record per appended
message, in append order, with the same role tag and text and the formatted
timestamp — but without the stored `message_id` field. -/
theorem chat_history_roundtrip (fmt : Nat → String)
    (l : List (Message × Nat × String)) :
    get_session_chat fmt (applyAppends none l) =
      l.map (fun e =>
        [("type",
          PyVal.str (match e.1.role with | .human => "human" | .ai => "ai")),
         ("content", PyVal.str e.1.content),
         ("timestamp", PyVal.str (fmt e.2.1))]) := by
  have hsome : ∀ (msgs : List PyRec) (l : List (Message × Nat × String)),
      applyAppends (some msgs) l =
        some (msgs ++ l.map (fun e => msg_dict e.1 e.2.1 e.2.2)) := by
    intro msgs l
    induction l generalizing msgs with
    | nil => simp [applyAppends]
    | cons e rest ih =>
      simp [applyAppends, aadd_message, ih]
  have hproj : ∀ e : Message × Nat × String,
      (fun msg =>
        [("type", (recLookup msg "type").getD (.str "KeyError")),
         ("content", (recLookup msg "content").getD (.str "KeyError")),
         ("timestamp",
          match recLookup msg "timestamp" with
          | some (.time t) => PyVal.str (fmt t)
          | some v => v
          | none => .str "KeyError")]) (msg_dict e.1 e.2.1 e.2.2) =
        [("type",
          PyVal.str (match e.1.role with | .human => "human" | .ai => "ai")),
         ("content", PyVal.str e.1.content),
         ("timestamp", PyVal.str (fmt e.2.1))] := by
    intro e
    obtain ⟨⟨role, content⟩, now, uuid⟩ := e
    cases role <;> rfl
  cases l with
  | nil => rfl
  | cons e rest =>
    rw [applyAppends, aadd_message]
    rw [show (Option.getD (none : Option (List PyRec)) [] ++
      [msg_dict e.1 e.2.1 e.2.2]) = [msg_dict e.1 e.2.1 e.2.2] from rfl]
    rw [hsome]
    rw [get_session_chat]
    rw [show ([msg_dict e.1 e.2.1 e.2.2] ++
      rest.map (fun e => msg_dict e.1 e.2.1 e.2.2)) =
      (e :: rest).map (fun e => msg_dict e.1 e.2.1 e.2.2) from rfl]
    rw [List.map_map]
    exact List.map_congr_left (fun e _ => hproj e)

/-- C4 (code slip).  The language cache never hits: the first call stores
the detected language under the field `selected_language`, while the cache
lookup reads the field `language`; a second call for the same
(session, user) therefore consults the model again and returns whatever the
new model outcome is, instead of the cached value. -/
theorem language_cache_never_hits :
    (get_or_detect_user_language none "s1" "u1" (.ok "Hindi")).fst =
      "Hindi" ∧
    (((get_or_detect_user_language none "s1" "u1" (.ok "Hindi")).snd.getD
        []).find? (fun kv => kv.1 = "selected_language")).map Prod.snd =
      some "Hindi" ∧
    (((get_or_detect_user_language none "s1" "u1" (.ok "Hindi")).snd.getD
        []).find? (fun kv => kv.1 = "language")) = none ∧
    (get_or_detect_user_language
        (get_or_detect_user_language none "s1" "u1" (.ok "Hindi")).snd
        "s1" "u1" (.ok "Spanish")).fst = "Spanish" := by
  refine ⟨?_, ?_, ?_, ?_⟩ <;> decide

/-- C5 (code slip).  An exception inside the detection call is swallowed by
`detect_language_llm` into the literal string `"Error: <msg>"`, which
`get_or_detect_user_language` returns (and stores) as the language — neither
a supported language nor the `"English"` fallback; likewise the sentinel
`"language is not support"` escapes for unsupported answers. -/
theorem detect_language_error_string_escapes :
    (get_or_detect_user_language none "s1" "u1" (.exn "timeout")).fst =
      "Error: timeout" ∧
    "Error: timeout" ∉ SUPPORTED_LANGUAGES ∧
    ("Error: timeout" : String) ≠ "English" ∧
    (get_or_detect_user_language none "s1" "u1" (.ok "Klingon")).fst =
      "language is not support" ∧
    "language is not support" ∉ SUPPORTED_LANGUAGES := by
  refine ⟨?_, ?_, ?_, ?_, ?_⟩ <;> decide

/-- C1 (code slip).  For every processor behaviour, the `generate_response`
stage applied to a state carrying a cached non-English language and a
failure envelope appends the fixed English apology: the node reads the
never-set state key `"responce_language"` (the detect stage writes
`user_query_language`), and its keyword calls pass `response_language=` to
processor methods whose parameter is `user_query_language`, raising
`TypeError` into the fallback branch.  The Response Processor is never
reached, in any language. -/
theorem generate_response_node_ignores_language (p : ProcessorBehavior) :
    generate_response_node p
        { messages := [⟨.human, "summarize this document"⟩],
          session_id := "s1", user_id := "u1", message_id := "m1",
          user_query_language := some "Hindi",
          intent := "document_summarizer",
          tool_result :=
            ⟨false, "No PDF or DOCX files found for summarization", ""⟩,
          documents := [] } =
      ⟨.ai,
       "I apologize, but I encountered an error while processing your request."⟩ ∧
    generate_response_node p
        { messages := [⟨.human, "summarize this document"⟩],
          session_id := "s1", user_id := "u1", message_id := "m1",
          user_query_language := some "Hindi",
          intent := "document_summarizer",
          tool_result := ⟨true, "", "summary data"⟩,
          documents := [] } =
      ⟨.ai,
       "I apologize, but I encountered an error while processing your request."⟩ ∧
    (∀ st : OrchestratorState, stateGetStr st "responce_language" "English" =
      "English") ∧
    pyKwargsOk handle_tool_failure_params generate_failure_call_kwargs =
      false ∧
    pyKwargsOk process_and_format_response_params
      generate_success_call_kwargs = false := by
  refine ⟨rfl, rfl, fun st => rfl, rfl, rfl⟩

end FinBot
